import Mathlib

/-!
# Thread Lifecycle & Message Relay Engine — verification of `src/data/Thread.js`

Shallow embedding of the `Thread` class of the modmail bot. JavaScript strings
are modelled as `List Char` (`Str`); the JS `String.prototype.split(sep)` and
`Array.prototype.join(sep)` used by the source (for the `", "`-separated
`alert_users` field and the `"#"`-separated `username#discriminator` encoding)
are embedded as executable list functions below. Database rows and the two
failure-prone gateway channels (the user DM channel and the shared relay
channel) are modelled by an explicit `World` state record threaded through
every operation.
-/

namespace Modmail

/-- JavaScript strings, modelled as lists of characters. -/
abbrev Str := List Char

/-- Shorthand: the character data of a Lean string literal. -/
def str (s : String) : Str := s.data

/-- JS `a || b` for a nullable string `a` (both `null` and `""` are falsy). -/
def jsOr (a : Option Str) (b : Str) : Str :=
  match a with
  | none => b
  | some s => if s = [] then b else s

/-- JS truthiness of a nullable string (`null` and `""` are falsy). -/
def jsTruthy (a : Option Str) : Bool :=
  match a with
  | none => false
  | some s => ! s.isEmpty

/-- Helper for the splitters: prepend a character to the first fragment. -/
def consHead (a : Char) : List Str → List Str
  | [] => [[a]]
  | p :: ps => (a :: p) :: ps

/-- JS `s.split(sep)` for a single-character separator `c`. -/
def splitChar (c : Char) : Str → List Str
  | [] => [[]]
  | a :: rest =>
    if a = c then [] :: splitChar c rest
    else consHead a (splitChar c rest)

/-- JS `s.split(", ")`: scan left to right, cutting at each `", "` occurrence. -/
def splitCommaSpace : Str → List Str
  | [] => [[]]
  | [a] => [[a]]
  | a :: b :: rest =>
    if a = ',' ∧ b = ' ' then [] :: splitCommaSpace rest
    else consHead a (splitCommaSpace (b :: rest))

/-- Whether the string contains an occurrence of `", "` (the alert separator). -/
def hasCommaSpace : Str → Bool
  | [] => false
  | [_] => false
  | a :: b :: rest => (a == ',' && b == ' ') || hasCommaSpace (b :: rest)

/-- JS `parts.join(sep)`. -/
def joinStr (sep : Str) : List Str → Str
  | [] => []
  | [x] => x
  | x :: y :: ys => x ++ sep ++ joinStr sep (y :: ys)

/-- Modelled from the spec: `THREAD_STATUS` of `src/data/constants.js` (not under
`src/`); the spec gives `status ∈ {Open, Closed, Suspended}`. The concrete numeric
values of the constants are irrelevant to every claim, only their distinctness. -/
inductive ThreadStatus where
  | OPEN
  | CLOSED
  | SUSPENDED
deriving DecidableEq, Repr

/-- Modelled from the spec: `THREAD_MESSAGE_TYPE` of `src/data/constants.js` (not
under `src/`); the spec gives `message_type ∈ {FromUser, ToUser, System, Chat,
Command}`. Only distinctness of the constants matters. -/
inductive MessageType where
  | SYSTEM
  | CHAT
  | FROM_USER
  | TO_USER
  | COMMAND
deriving DecidableEq, Repr

/-- A guild role (`Eris.Role`): only the fields the engine reads. -/
structure Role where
  id : Str
  name : Str
deriving DecidableEq, Repr

/-- An `Eris.User`-shaped actor (`id`, `username`, `discriminator`). -/
structure Author where
  id : Str
  username : Str
  discriminator : Str
deriving DecidableEq, Repr

/-- An `Eris.Member` moderator. `mainRole` is the result of `utils.getMainRole`
(`src/utils.js` is not under `src/`; the spec calls it the default main-role
computation), supplied as data. -/
structure Moderator where
  id : Str
  username : Str
  nick : Option Str
  mainRole : Option Role
deriving DecidableEq, Repr

/-- A message attachment: the engine reads `id`, `filename` and `size`. -/
structure Attachment where
  id : Str
  filename : Str
  size : Nat
deriving DecidableEq, Repr

/-- An inbound user DM (`Eris.Message`): the fields `receiveUserReply` reads.
`embeds` is the length of `msg.embeds`. -/
structure InboundMsg where
  id : Nat
  authorUsername : Str
  authorDiscriminator : Str
  content : Str
  embeds : Nat
  attachments : List Attachment
  timestamp : Int
deriving DecidableEq, Repr

/-- `Eris.MessageContent`: either a plain string or a `{content: ...}` object
(the tagged variant the spec asks for in place of runtime shape inspection). -/
inductive MsgContent where
  | plain (s : Str)
  | rich (content : Str)
deriving DecidableEq, Repr

/-- The parsed value of the serialized `staff_role_overrides` JSON map
(operator id → role id). `JSON.parse`/`JSON.stringify` form a bijection between
object values and their canonical serializations, so the serialized column is
modelled by its parsed association list (keys unique, as in a JS object). -/
abbrev OvMap := List (Str × Str)

/-- One `thread_messages` row, as written by `addThreadMessageToDB`. All rows
belong to the single modelled thread, so `thread_id` is omitted. -/
structure ThreadMessageRow where
  message_type : MessageType
  user_id : Option Str
  user_name : Str
  body : Str
  is_anonymous : Nat
  dm_message_id : Nat
  thread_message_id : Nat
  created_at : Int
deriving DecidableEq, Repr

/-- The `threads` row of the modelled thread. Timestamps are modelled as
integer milliseconds (`moment` diffs are millisecond subtractions). -/
structure ThreadRec where
  user_id : Str
  user_name : Str
  channel_id : Str
  status : ThreadStatus
  scheduled_close_at : Option Int
  scheduled_close_id : Option Str
  scheduled_close_name : Option Str
  alert_users : Option Str
  staff_role_overrides : Option OvMap
deriving DecidableEq, Repr

/-- The world state threaded through every operation: the persisted thread row,
the append-only transcript, the two gateway channels (user DM and shared relay
channel) with their delivered messages and availability, and the gateway's
message-id counter. A `Thread` object is always freshly loaded from the row when
an operation starts, so its props are the `thread` field at entry. -/
structure World where
  thread : ThreadRec
  transcript : List ThreadMessageRow
  dmSent : List MsgContent
  channelSent : List MsgContent
  dmReachable : Bool
  channelExists : Bool
  nextId : Nat
deriving DecidableEq, Repr

/-- Bot configuration flags read by the engine. -/
structure Config where
  useNicknames : Bool
  threadTimestamps : Bool
  relaySmallAttachmentsAsAttachments : Bool
deriving DecidableEq, Repr

/-- The engine's environment: configuration, the current time, the bot's own
user, and the external helpers the engine calls (`attachments.getUrl`,
`utils.formatAttachment`, `utils.getTimestamp`, guild role lookup), supplied as
data since they live outside `src/`. -/
structure Env where
  config : Config
  now : Int
  botUser : Author
  getUrl : Attachment → Str
  formatAttachmentOf : Attachment → Str
  getTimestamp : Str
  getTimestampAt : Int → Str
  guildRole : Str → Option Role

namespace Thread

/-- The error message thrown by `postToUser` when the DM channel cannot be
opened (user blocked the bot / privacy settings). -/
def dmUnreachableMessage : Str :=
  str "Could not open DMs with the user. They may have blocked the bot or set their privacy settings higher."

/-- `Thread.postToUser`: opens the DM channel and sends; the modelled failure
mode is the unreachable user (the thrown `Error` of the source). On success the
sent message's gateway id is returned. -/
def postToUser (content : MsgContent) (w : World) : Except Str (Nat × World) :=
  if w.dmReachable then
    .ok (w.nextId, { w with dmSent := w.dmSent ++ [content], nextId := w.nextId + 1 })
  else
    .error dmUnreachableMessage

/-- The `knex("threads").update({...})` performed by `Thread.close`: status
becomes `CLOSED`, the close time/actor are stamped into the scheduled-close
columns, and the alert and override columns are cleared. -/
def closeUpdate (env : Env) (closeId : Option Str) (closeName : Option Str) (w : World) : World :=
  { w with thread := { w.thread with
      status := .CLOSED,
      scheduled_close_at := some env.now,
      scheduled_close_id := closeId,
      scheduled_close_name := closeName,
      alert_users := none,
      staff_role_overrides := none } }

/-- The channel-deletion step at the end of `Thread.close`: `bot.getChannel`
returns the channel only if it still exists, and then it is deleted. -/
def deleteChannelStep (w : World) : World :=
  if w.channelExists then { w with channelExists := false } else w

/-- The automatic `this.close(bot.user, true)` performed by
`postToThreadChannel` when the relay channel no longer exists: a silent close
with the bot as actor (no notice is posted; the author is present so no
reconstruction happens). -/
def closeAuto (env : Env) (w : World) : World :=
  deleteChannelStep (closeUpdate env (some env.botUser.id)
    (some (env.botUser.username ++ str "#" ++ env.botUser.discriminator)) w)

/-- `Thread.postToThreadChannel`: sends to the relay channel; if the channel no
longer exists (`error.code === 10003`) the thread is auto-closed and `none` is
returned (the source returns `undefined`). -/
def postToThreadChannel (env : Env) (content : MsgContent) (w : World) : Option Nat × World :=
  if w.channelExists then
    (some w.nextId, { w with channelSent := w.channelSent ++ [content], nextId := w.nextId + 1 })
  else
    (none, closeAuto env w)

/-- The transcript body stored by `postSystemMessage`: the text itself for a
string, and (by the source's expression `(text.content + text.embed ? " <embed>"
: "").trim()`, whose condition is a never-empty concatenation) `"<embed>"` for
an object content. -/
def systemBody : MsgContent → Str
  | .plain s => s
  | .rich _ => str "<embed>"

/-- The `SYSTEM` transcript row written by `postSystemMessage`: empty
`user_name`, null `user_id`, both message-id columns set to the posted relay
message's id. -/
def sysRow (body : Str) (mid : Nat) (now : Int) : ThreadMessageRow :=
  { message_type := .SYSTEM, user_id := none, user_name := [],
    body := body, is_anonymous := 0,
    dm_message_id := mid, thread_message_id := mid, created_at := now }

/-- `Thread.postSystemMessage`: posts to the relay channel only and appends a
`SYSTEM` transcript row; returns the sent message handle (or `none` if the
channel is gone, in which case nothing is logged). -/
def postSystemMessage (env : Env) (content : MsgContent) (w : World) : Option Nat × World :=
  match postToThreadChannel env content w with
  | (none, w1) => (none, w1)
  | (some mid, w1) =>
    (some mid, { w1 with transcript := w1.transcript ++ [sysRow (systemBody content) mid env.now] })

/-- JS object property read `m[u]` on the parsed override map. -/
def ovGet : OvMap → Str → Option Str
  | [], _ => none
  | (k, v) :: rest, u => if k = u then some v else ovGet rest u

/-- JS object property write `m[u] = r`: replaces in place or appends. -/
def ovSet : OvMap → Str → Str → OvMap
  | [], u, r => [(u, r)]
  | (k, v) :: rest, u, r => if k = u then (k, r) :: rest else (k, v) :: ovSet rest u r

/-- JS `delete m[u]`. -/
def ovDel (m : OvMap) (u : Str) : OvMap :=
  m.filter (fun p => ! (p.1 == u))

/-- `Thread.getStaffRoleOverride`: reads the thread's (loaded) serialized
override column; `null` is falsy, any serialized object string (even `"{}"`) is
truthy and is parsed and indexed. -/
def getStaffRoleOverride (field : Option OvMap) (userId : Str) : Option Str :=
  match field with
  | none => none
  | some m => ovGet m userId

/-- `Thread.setStaffRoleOverride`: read-modify-write of the persisted override
column (`{}` when the column is null), assigning `overrides[userId] = roleId`. -/
def setStaffRoleOverride (field : Option OvMap) (userId : Str) (roleId : Str) : Option OvMap :=
  let overrides := match field with | none => [] | some m => m
  some (ovSet overrides userId roleId)

/-- `Thread.deleteStaffRoleOverride`: if the persisted column is truthy, parse
it; only when `overrides[userId]` is truthy delete the key and write back
(otherwise the column is left untouched). -/
def deleteStaffRoleOverride (field : Option OvMap) (userId : Str) : Option OvMap :=
  match field with
  | none => none
  | some m => if jsTruthy (ovGet m userId) then some (ovDel m userId) else some m

/-- `Thread.getMainRole`: a truthy per-thread override that still resolves to an
existing guild role wins; otherwise `utils.getMainRole(member)`. -/
def getMainRole (env : Env) (th : ThreadRec) (mod : Moderator) : Option Role :=
  match getStaffRoleOverride th.staff_role_overrides mod.id with
  | some roleId =>
    if roleId ≠ [] then
      match env.guildRole roleId with
      | some r => some r
      | none => mod.mainRole
    else mod.mainRole
  | none => mod.mainRole

/-- The `(modUsername, logModUsername)` pair computed at the top of
`Thread.replyToUser`. -/
def replyNames (env : Env) (th : ThreadRec) (mod : Moderator) (isAnonymous : Bool) : Str × Str :=
  let mainRole := getMainRole env th mod
  if isAnonymous then
    let modUsername := match mainRole with | some r => r.name | none => str "Staff"
    (modUsername, str "(" ++ mod.username ++ str ") " ++ modUsername)
  else
    let name := if env.config.useNicknames then jsOr mod.nick mod.username else mod.username
    let modUsername := match mainRole with
      | some r => str "(" ++ name ++ str ") " ++ r.name
      | none => name
    (modUsername, modUsername)

/-- The DM text of an outbound reply: `**modUsername:** text`. -/
def replyDmContent (env : Env) (th : ThreadRec) (mod : Moderator) (text : Str) (isAnonymous : Bool) : Str :=
  str "**" ++ (replyNames env th mod isAnonymous).1 ++ str ":** " ++ text

/-- The relay-channel text of an outbound reply, with the optional
`[**HH:MM**] » ` timestamp prefix. -/
def replyThreadContent (env : Env) (th : ThreadRec) (mod : Moderator) (text : Str) (isAnonymous : Bool) : Str :=
  let base := str "**" ++ (replyNames env th mod isAnonymous).2 ++ str ":** " ++ text
  if env.config.threadTimestamps then str "[**" ++ env.getTimestamp ++ str "**] » " ++ base
  else base

/-- The transcript body of an outbound reply: the raw text with one
`**Attachment:** url` line appended per attachment. -/
def replyLogContent (env : Env) (text : Str) (atts : List Attachment) : Str :=
  text ++ (atts.map (fun a => str "\n\n**Attachment:** " ++ env.getUrl a)).flatten

/-- `Thread.cancelScheduledClose`: clears the three scheduled-close columns. -/
def cancelScheduledCloseOp (th : ThreadRec) : ThreadRec :=
  { th with scheduled_close_at := none, scheduled_close_id := none, scheduled_close_name := none }

/-- `Thread.scheduleClose(time, user)`: sets the three scheduled-close columns. -/
def scheduleCloseOp (time : Int) (user : Author) (th : ThreadRec) : ThreadRec :=
  { th with
      scheduled_close_at := some time,
      scheduled_close_id := some user.id,
      scheduled_close_name := some (user.username ++ str "#" ++ user.discriminator) }

/-- `Thread.suspend`. -/
def suspend (th : ThreadRec) : ThreadRec := { th with status := .SUSPENDED }

/-- `Thread.unsuspend`. -/
def unsuspend (th : ThreadRec) : ThreadRec := { th with status := .OPEN }

/-- `Thread.replyToUser(moderator, text, replyAttachments, isAnonymous)`:
DM first; on DM failure report to the relay channel and abort. Then relay
channel; `undefined` (channel deleted, thread auto-closed) aborts. Then the
`TO_USER` transcript row, then the unconditional cancel of a pending scheduled
close. -/
def replyToUser (env : Env) (mod : Moderator) (text : Str) (replyAttachments : List Attachment)
    (isAnonymous : Bool) (w : World) : World :=
  let self := w.thread
  match postToUser (.plain (replyDmContent env self mod text isAnonymous)) w with
  | .error e => (postSystemMessage env (.plain (str "Error while replying to user: " ++ e)) w).2
  | .ok (dmId, w1) =>
    match postToThreadChannel env (.plain (replyThreadContent env self mod text isAnonymous)) w1 with
    | (none, w2) => w2
    | (some tid, w2) =>
      let w3 := { w2 with transcript := w2.transcript ++ [{
          message_type := .TO_USER, user_id := some mod.id,
          user_name := (replyNames env self mod isAnonymous).2,
          body := replyLogContent env text replyAttachments,
          is_anonymous := if isAnonymous then 1 else 0,
          dm_message_id := dmId, thread_message_id := tid, created_at := env.now }] }
      if self.scheduled_close_at.isSome then
        let w4 := { w3 with thread := cancelScheduledCloseOp w3.thread }
        (postSystemMessage env
          (.plain (str "Cancelling scheduled closing of this thread due to new reply")) w4).2
      else w3

/-- `<@id>` mention. -/
def mention (id : Str) : Str := str "<@" ++ id ++ str ">"

/-- The `.map((id, i, arr) => ...).join("")` of `receiveUserReply`: first
element bare, last prefixed by `" and "`, the rest by `", "`. -/
def joinMentions (ids : List Str) : Str :=
  (ids.enum.map (fun p =>
    (if p.1 = 0 then [] else if p.1 = ids.length - 1 then str " and " else str ", ")
      ++ mention p.2)).flatten

/-- The alert mention string of `receiveUserReply`: the stored `alert_users`
column split on `", "`, the close-scheduler filtered out, joined as mentions. -/
def buildAlerts (stored : Str) (scheduledCloseId : Option Str) : Str :=
  joinMentions ((splitCommaSpace stored).filter (fun i =>
    match scheduledCloseId with
    | none => true
    | some c => ! (i == c)))

/-- JS `s.trim() === ""`: every character is whitespace. -/
def jsTrimEmpty (s : Str) : Bool :=
  s.all (fun c => c == ' ' || c == '\t' || c == '\n' || c == '\r')

/-- The placeholder substituted for empty-text inbound messages with embeds. -/
def embedsPlaceholder : Str := str "<message contains embeds>"

/-- The displayed content of an inbound message: the placeholder when the text
is blank but embeds are present, the raw content otherwise. -/
def inboundDisplayContent (msg : InboundMsg) : Str :=
  if jsTrimEmpty msg.content && ! (msg.embeds == 0) then embedsPlaceholder else msg.content

/-- The relay-channel text of an inbound message before attachment links:
`**username#discriminator:** content`, with the optional `[**ts**] « ` prefix. -/
def inboundThreadContent (env : Env) (msg : InboundMsg) : Str :=
  let base := str "**" ++ msg.authorUsername ++ str "#" ++ msg.authorDiscriminator
    ++ str ":** " ++ inboundDisplayContent msg
  if env.config.threadTimestamps then str "[**" ++ env.getTimestampAt msg.timestamp ++ str "**] « " ++ base
  else base

/-- Whether an attachment is re-sent as an inline file on the relay side
(small-attachment relaying enabled and size at most 2 MB). -/
def relayedAsFile (env : Env) (a : Attachment) : Bool :=
  env.config.relaySmallAttachmentsAsAttachments && decide (a.size ≤ 1024 * 1024 * 2)

/-- The full relay-channel text of an inbound message: formatted link lines are
appended only for attachments not re-sent as files. -/
def inboundThreadContentFull (env : Env) (msg : InboundMsg) : Str :=
  inboundThreadContent env msg ++
    ((msg.attachments.filter (fun a => ! relayedAsFile env a)).map
      (fun a => str "\n\n" ++ env.formatAttachmentOf a)).flatten

/-- The transcript body of an inbound message: the raw content with one
formatted link line per attachment (logs always contain the link). -/
def inboundLogContent (env : Env) (msg : InboundMsg) : Str :=
  msg.content ++ (msg.attachments.map (fun a => str "\n\n" ++ env.formatAttachmentOf a)).flatten

/-- JS template interpolation of a nullable string (`null` renders as "null"). -/
def jsTemplate (o : Option Str) : Str :=
  match o with
  | none => str "null"
  | some s => s

/-- The DM sent to the user when their thread's relay channel turned out to be
deleted. -/
def autoCloseUserNotice : Str :=
  str "The current thread was automatically closed due to an internal error. Please send another message to open a new thread."

/-- The `FROM_USER` transcript row written by `receiveUserReply`: the thread's
`user_id`, the author's `username#discriminator`, the fully resolved log body,
the DM message id and the posted relay message id. -/
def fromUserRow (self : ThreadRec) (msg : InboundMsg) (body : Str) (tid : Nat)
    (now : Int) : ThreadMessageRow :=
  { message_type := .FROM_USER, user_id := some self.user_id,
    user_name := msg.authorUsername ++ str "#" ++ msg.authorDiscriminator,
    body := body, is_anonymous := 0,
    dm_message_id := msg.id, thread_message_id := tid, created_at := now }

/-- `Thread.receiveUserReply(msg)`: relay-channel send first (failure notifies
the user DM and aborts, the thread having been auto-closed), then the
`FROM_USER` transcript row, then the watcher alert notice, then the pending
close cancel/remind rule with its 30-second guard window. -/
def receiveUserReply (env : Env) (msg : InboundMsg) (w : World) : World :=
  let self := w.thread
  match postToThreadChannel env (.plain (inboundThreadContentFull env msg)) w with
  | (none, w1) => { w1 with dmSent := w1.dmSent ++ [.plain autoCloseUserNotice] }
  | (some tid, w1) =>
    let w2 := { w1 with transcript := w1.transcript
      ++ [fromUserRow self msg (inboundLogContent env msg) tid env.now] }
    let w3 :=
      if jsTruthy self.alert_users then
        let alerts := buildAlerts (self.alert_users.getD []) self.scheduled_close_id
        if alerts ≠ [] then
          (postSystemMessage env (.plain (alerts ++ str ", there is a new message from **"
            ++ self.user_name ++ str "**!")) w2).2
        else w2
      else w2
    match self.scheduled_close_at with
    | none => w3
    | some t =>
      if t - env.now ≤ 30000 then
        let w4 := { w3 with thread := cancelScheduledCloseOp w3.thread }
        (postSystemMessage env (.rich (str "<@!" ++ jsTemplate self.scheduled_close_id
          ++ str "> Thread that was scheduled to be closed got a new reply. Cancelling.")) w4).2
      else
        (postSystemMessage env (.rich (str "<@!" ++ jsTemplate self.scheduled_close_id
          ++ str "> The thread was updated, use `!close cancel` if you would like to cancel.")) w3).2

/-- The notice posted by a non-silent close. -/
def closingNotice : Str := str "Closing thread..."

/-- `Thread.close(author, silent)`: unless silent, first post the closing
notice (whose failure auto-closes silently); an absent author is reconstructed
from the currently persisted scheduled-close columns by splitting the cached
`username#discriminator` string (a `TypeError` when the column is null); then
the close update is persisted and the relay channel deleted if it still
exists. -/
def close (env : Env) (author : Option Author) (silent : Bool) (w : World) : Except Str World :=
  let w1 := if silent then w else (postToThreadChannel env (.plain closingNotice) w).2
  match author with
  | some a =>
    .ok (deleteChannelStep (closeUpdate env (some a.id)
      (some (a.username ++ str "#" ++ a.discriminator)) w1))
  | none =>
    match w1.thread.scheduled_close_name with
    | none => .error (str "TypeError: scheduled_close_name is null")
    | some n =>
      let parts := splitChar '#' n
      let username := joinStr (str "#") parts.dropLast
      let discriminator := parts.getLastD []
      .ok (deleteChannelStep (closeUpdate env w1.thread.scheduled_close_id
        (some (username ++ str "#" ++ discriminator)) w1))

/-- The decoded watcher list: `(alerts.alert_users && alerts.alert_users.split(", ")) || []`. -/
def decodeAlerts (o : Option Str) : List Str :=
  match o with
  | none => []
  | some s => if s = [] then [] else splitCommaSpace s

/-- The stored encoding of a watcher list: the `", "` join when non-empty,
`null` otherwise. -/
def encodeAlerts (l : List Str) : Option Str :=
  if 0 < l.length then some (joinStr (str ", ") l) else none

/-- The in-memory update of `Thread.alertStatus` on the decoded list: push when
absent and `status === true`, splice out the found index when
`status === false` (a no-op when the index is `-1`). -/
def alertStep (alerts : List Str) (userId : Str) (status : Bool) : List Str :=
  if (! alerts.contains userId) && status then alerts ++ [userId]
  else if status == false then alerts.erase userId
  else alerts

/-- `Thread.alertStatus(userId, status)`: read-modify-write of the persisted
`alert_users` column: decode, update the list, re-encode (null for the empty
list). -/
def alertStatus (db : Option Str) (userId : Str) (status : Bool) : Option Str :=
  encodeAlerts (alertStep (decodeAlerts db) userId status)

/-- Fold a call sequence of `alertStatus` arguments (`userId`, `status`) over
the persisted `alert_users` column. -/
def applyAlertSeq (ops : List (Str × Bool)) (db : Option Str) : Option Str :=
  ops.foldl (fun d p => alertStatus d p.1 p.2) db

end Thread

/-- One scheduled-close operation: `scheduleClose(time, user)` or
`cancelScheduledClose()`. -/
inductive SchedOp where
  | schedule (time : Int) (user : Author)
  | cancel
deriving Repr

/-- Apply a sequence of scheduled-close operations to the thread row. -/
def Thread.applySchedSeq (ops : List SchedOp) (th : ThreadRec) : ThreadRec :=
  ops.foldl (fun t op =>
    match op with
    | .schedule time user => Thread.scheduleCloseOp time user t
    | .cancel => Thread.cancelScheduledCloseOp t) th

/-- The three scheduled-close columns are all null together or all set
together. -/
def AllOrNoneSched (th : ThreadRec) : Prop :=
  (th.scheduled_close_at.isSome ∧ th.scheduled_close_id.isSome ∧ th.scheduled_close_name.isSome)
  ∨ (th.scheduled_close_at = none ∧ th.scheduled_close_id = none ∧ th.scheduled_close_name = none)

/-- A well-formed operator id for the `", "`-joined `alert_users` encoding:
non-empty (a Discord snowflake) and free of the separator. -/
def GoodId (s : Str) : Prop := s ≠ [] ∧ hasCommaSpace s = false

instance : DecidablePred GoodId := fun s => by unfold GoodId; infer_instance

instance : DecidablePred AllOrNoneSched := fun th => by unfold AllOrNoneSched; infer_instance

/-- A well-formed persisted `alert_users` column: the encoding of some
duplicate-free list of well-formed operator ids. -/
def GoodAlertsDB (db : Option Str) : Prop :=
  ∃ l : List Str, db = Thread.encodeAlerts l ∧ l.Nodup ∧ ∀ x ∈ l, GoodId x

/-- Concrete configuration for witnesses: all optional features off. -/
def cfg0 : Config := ⟨false, false, false⟩

/-- Concrete scheduling operator fixture for witnesses. -/
def author0 : Author := ⟨str "1001", str "alice", str "0001"⟩

/-- The bot's own user, used by the auto-close path. -/
def bot0 : Author := ⟨str "999", str "modmailbot", str "0000"⟩

/-- Concrete environment for witnesses. -/
def env0 : Env :=
  { config := cfg0, now := 0, botUser := bot0,
    getUrl := fun a => a.filename,
    formatAttachmentOf := fun a => a.filename,
    getTimestamp := str "12:00",
    getTimestampAt := fun _ => str "12:00",
    guildRole := fun _ => none }

/-- Concrete moderator for witnesses. -/
def mod0 : Moderator := ⟨str "2002", str "mona", none, none⟩

/-- Concrete open thread row for witnesses. -/
def thread0 : ThreadRec :=
  { user_id := str "42", user_name := str "user42", channel_id := str "77",
    status := .OPEN, scheduled_close_at := none, scheduled_close_id := none,
    scheduled_close_name := none, alert_users := none, staff_role_overrides := none }

/-- Build a fresh world over a thread row with the given channel availability. -/
def mkWorld (th : ThreadRec) (dm ch : Bool) : World :=
  { thread := th, transcript := [], dmSent := [], channelSent := [],
    dmReachable := dm, channelExists := ch, nextId := 100 }

/-- Thread row with a pending scheduled close far (100 s) in the future. -/
def thread3 : ThreadRec :=
  { thread0 with
      scheduled_close_at := some 100000,
      scheduled_close_id := some (str "1001"),
      scheduled_close_name := some (str "alice#0001") }

/-- Thread row whose only watcher is also the operator who scheduled the
pending close (so the alert mention list filters to empty). -/
def thread8 : ThreadRec :=
  { thread0 with
      alert_users := some (str "1"),
      scheduled_close_id := some (str "1") }

/-- Concrete inbound message with blank text and one embed. -/
def msg0 : InboundMsg :=
  { id := 5, authorUsername := str "bob", authorDiscriminator := str "1234",
    content := [], embeds := 1, attachments := [], timestamp := 0 }

example : splitCommaSpace (str "a, b, c") = [str "a", str "b", str "c"] := by decide
example : splitChar '#' (str "user#1234") = [str "user", str "1234"] := by decide
example : joinStr (str ", ") [str "a", str "b"] = str "a, b" := by decide

namespace StrLemmas

theorem consHead_ne_nil (a : Char) (l : List Str) : consHead a l ≠ [] := by
  cases l <;> simp [consHead]

theorem splitChar_ne_nil (c : Char) (s : Str) : splitChar c s ≠ [] := by
  induction s with
  | nil => simp [splitChar]
  | cons a rest ih =>
    simp only [splitChar]
    split
    · simp
    · exact consHead_ne_nil _ _

theorem splitCommaSpace_ne_nil (s : Str) : splitCommaSpace s ≠ [] := by
  induction s with
  | nil => simp [splitCommaSpace]
  | cons a rest ih =>
    cases rest with
    | nil => simp [splitCommaSpace]
    | cons b rest2 =>
      simp only [splitCommaSpace]
      split
      · simp
      · exact consHead_ne_nil _ _

theorem joinStr_consHead (sep : Str) (a : Char) (L : List Str) (h : L ≠ []) :
    joinStr sep (consHead a L) = a :: joinStr sep L := by
  match L with
  | [] => exact absurd rfl h
  | [p] => simp [consHead, joinStr]
  | p :: q :: ps => simp [consHead, joinStr]

theorem joinStr_splitChar (c : Char) (s : Str) : joinStr [c] (splitChar c s) = s := by
  induction s with
  | nil => simp [splitChar, joinStr]
  | cons a rest ih =>
    simp only [splitChar]
    split
    · rename_i hac
      obtain ⟨p, ps, hps⟩ : ∃ p ps, splitChar c rest = p :: ps := by
        cases hsp : splitChar c rest with
        | nil => exact absurd hsp (splitChar_ne_nil c rest)
        | cons p ps => exact ⟨p, ps, rfl⟩
      rw [hps]
      rw [hps] at ih
      simp only [joinStr, List.nil_append, List.singleton_append]
      rw [ih, hac]
    · rw [joinStr_consHead _ _ _ (splitChar_ne_nil c rest), ih]

theorem splitChar_length_ge_two (c : Char) (s : Str) (h : c ∈ s) :
    2 ≤ (splitChar c s).length := by
  induction s with
  | nil => simp at h
  | cons a rest ih =>
    simp only [splitChar]
    split
    · have hpos := List.length_pos.mpr (splitChar_ne_nil c rest)
      simp only [List.length_cons]
      omega
    · rename_i hne
      have hmem : c ∈ rest := by
        rcases List.mem_cons.mp h with h1 | h2
        · exact absurd h1.symm hne
        · exact h2
      have hlen := ih hmem
      cases hsp : splitChar c rest with
      | nil => exact absurd hsp (splitChar_ne_nil c rest)
      | cons p ps =>
        rw [hsp] at hlen
        simpa [consHead] using hlen

theorem joinStr_cons_cons (sep x y : Str) (ys : List Str) :
    joinStr sep (x :: y :: ys) = x ++ sep ++ joinStr sep (y :: ys) := rfl

theorem joinStr_append_last (sep : Str) (q : List Str) (y : Str) (h : q ≠ []) :
    joinStr sep (q ++ [y]) = joinStr sep q ++ sep ++ y := by
  induction q with
  | nil => exact absurd rfl h
  | cons x xs ih =>
    cases xs with
    | nil => simp [joinStr]
    | cons x2 xs2 =>
      have hrec := ih (by simp)
      calc joinStr sep ((x :: x2 :: xs2) ++ [y])
          = x ++ sep ++ joinStr sep ((x2 :: xs2) ++ [y]) := joinStr_cons_cons sep x x2 (xs2 ++ [y])
        _ = x ++ sep ++ (joinStr sep (x2 :: xs2) ++ sep ++ y) := by rw [hrec]
        _ = joinStr sep (x :: x2 :: xs2) ++ sep ++ y := by
            rw [joinStr_cons_cons]
            simp [List.append_assoc]

theorem splitChar_rejoin (c : Char) (n : Str) (h : c ∈ n) :
    joinStr [c] (splitChar c n).dropLast ++ c :: (splitChar c n).getLastD [] = n := by
  have h2 := splitChar_length_ge_two c n h
  obtain hqy := List.eq_nil_or_concat (splitChar c n)
  rcases hqy with hnil | ⟨q, y, hqy⟩
  · exact absurd hnil (splitChar_ne_nil c n)
  · rw [List.concat_eq_append] at hqy
    have hq : q ≠ [] := by
      intro hq0
      rw [hq0] at hqy
      rw [hqy] at h2
      simp at h2
    have hjoin := joinStr_splitChar c n
    rw [hqy] at hjoin ⊢
    rw [joinStr_append_last _ _ _ hq] at hjoin
    rw [List.dropLast_concat, List.getLastD_concat]
    rw [← hjoin]
    simp

theorem hasCommaSpace_cons_false {a b : Char} {t : Str}
    (h : hasCommaSpace (a :: b :: t) = false) :
    ¬ (a = ',' ∧ b = ' ') ∧ hasCommaSpace (b :: t) = false := by
  simp only [hasCommaSpace, Bool.or_eq_false_iff, Bool.and_eq_false_iff] at h
  constructor
  · rintro ⟨ha, hb⟩
    rcases h.1 with hc | hc <;> simp [ha, hb] at hc
  · exact h.2

theorem splitCommaSpace_of_no_sep (x : Str) (h : hasCommaSpace x = false) :
    splitCommaSpace x = [x] := by
  induction x with
  | nil => simp [splitCommaSpace]
  | cons a x' ih =>
    cases x' with
    | nil => simp [splitCommaSpace]
    | cons b x'' =>
      obtain ⟨hab, hx⟩ := hasCommaSpace_cons_false h
      simp only [splitCommaSpace]
      rw [if_neg hab, ih hx]
      simp [consHead]

theorem splitCommaSpace_append (x rest : Str) (h : hasCommaSpace x = false) :
    splitCommaSpace (x ++ ',' :: ' ' :: rest) = x :: splitCommaSpace rest := by
  induction x with
  | nil =>
    simp [splitCommaSpace]
  | cons a x' ih =>
    cases x' with
    | nil =>
      simp [splitCommaSpace, consHead]
    | cons b x'' =>
      obtain ⟨hab, hx⟩ := hasCommaSpace_cons_false h
      have hrec := ih hx
      simp only [List.cons_append] at hrec ⊢
      rw [show splitCommaSpace (a :: b :: (x'' ++ ',' :: ' ' :: rest))
          = consHead a (splitCommaSpace (b :: (x'' ++ ',' :: ' ' :: rest))) from by
        simp only [splitCommaSpace]
        rw [if_neg hab]]
      rw [hrec]
      simp [consHead]

theorem splitCommaSpace_joinStr (l : List Str) (hl : l ≠ [])
    (h : ∀ x ∈ l, hasCommaSpace x = false) :
    splitCommaSpace (joinStr (str ", ") l) = l := by
  induction l with
  | nil => exact absurd rfl hl
  | cons x xs ih =>
    cases xs with
    | nil => simpa [joinStr] using splitCommaSpace_of_no_sep x (h x (by simp))
    | cons y ys =>
      have hstep : joinStr (str ", ") (x :: y :: ys)
          = x ++ ',' :: ' ' :: joinStr (str ", ") (y :: ys) := by
        show x ++ str ", " ++ joinStr (str ", ") (y :: ys) = _
        simp [str, List.append_assoc]
      rw [hstep, splitCommaSpace_append _ _ (h x (by simp)),
        ih (by simp) (fun z hz => h z (by simp [hz]))]

theorem joinStr_head_ne_nil (sep : Str) (x : Str) (xs : List Str) (hx : x ≠ []) :
    joinStr sep (x :: xs) ≠ [] := by
  cases xs <;> simp [joinStr, hx]

theorem decodeAlerts_encodeAlerts (l : List Str) (h : ∀ x ∈ l, GoodId x) :
    Thread.decodeAlerts (Thread.encodeAlerts l) = l := by
  cases l with
  | nil => simp [Thread.encodeAlerts, Thread.decodeAlerts]
  | cons x xs =>
    have hx := h x (by simp)
    have hne := joinStr_head_ne_nil (str ", ") x xs hx.1
    simp only [Thread.encodeAlerts, List.length_cons, Nat.zero_lt_succ, if_pos,
      Thread.decodeAlerts]
    rw [if_neg hne]
    exact splitCommaSpace_joinStr (x :: xs) (by simp) (fun z hz => (h z hz).2)

end StrLemmas

namespace OverrideLemmas

theorem ovGet_ovSet (m : OvMap) (u r : Str) : Thread.ovGet (Thread.ovSet m u r) u = some r := by
  induction m with
  | nil => simp [Thread.ovSet, Thread.ovGet]
  | cons p rest ih =>
    obtain ⟨k, v⟩ := p
    by_cases hk : k = u
    · simp [Thread.ovSet, Thread.ovGet, hk]
    · simp [Thread.ovSet, Thread.ovGet, hk, ih]

theorem ovGet_ovDel (m : OvMap) (u : Str) : Thread.ovGet (Thread.ovDel m u) u = none := by
  induction m with
  | nil => simp [Thread.ovDel, Thread.ovGet]
  | cons p rest ih =>
    obtain ⟨k, v⟩ := p
    by_cases hk : k = u
    · simpa [Thread.ovDel, List.filter_cons, hk] using ih
    · simpa [Thread.ovDel, List.filter_cons, hk, Thread.ovGet] using ih

end OverrideLemmas

namespace AlertLemmas

theorem alertStep_mem_true (l : List Str) (u : Str) (hmem : u ∈ l) :
    Thread.alertStep l u true = l := by
  have hcont : l.contains u = true := by simpa using hmem
  unfold Thread.alertStep
  rw [hcont]
  simp

theorem alertStep_not_mem_false (l : List Str) (u : Str) (hmem : u ∉ l) :
    Thread.alertStep l u false = l := by
  unfold Thread.alertStep
  simp [List.erase_of_not_mem hmem]

theorem alertStatus_preserves_good (db : Option Str) (u : Str) (s : Bool)
    (hdb : GoodAlertsDB db) (hu : GoodId u) : GoodAlertsDB (Thread.alertStatus db u s) := by
  obtain ⟨l, hl, hnd, hg⟩ := hdb
  have hdec : Thread.decodeAlerts db = l := by
    rw [hl]
    exact StrLemmas.decodeAlerts_encodeAlerts l hg
  unfold Thread.alertStatus
  rw [hdec]
  by_cases hmem : u ∈ l
  · cases s with
    | true =>
      rw [alertStep_mem_true l u hmem]
      exact ⟨l, rfl, hnd, hg⟩
    | false =>
      have hcont : l.contains u = true := by simpa using hmem
      unfold Thread.alertStep
      rw [hcont]
      simp only [Bool.not_true, Bool.false_and, Bool.false_eq_true, if_false, beq_self_eq_true,
        if_true]
      refine ⟨l.erase u, rfl, hnd.erase u, fun x hx => hg x (List.mem_of_mem_erase hx)⟩
  · cases s with
    | true =>
      have hcont : l.contains u = false := by simpa using hmem
      unfold Thread.alertStep
      rw [hcont]
      simp only [Bool.not_false, Bool.true_and, if_true]
      refine ⟨l ++ [u], rfl, ?_, ?_⟩
      · simp [List.nodup_append, hnd, hmem]
      · intro x hx
        rcases List.mem_append.mp hx with h1 | h2
        · exact hg x h1
        · simp at h2
          exact h2 ▸ hu
    | false =>
      rw [alertStep_not_mem_false l u hmem]
      exact ⟨l, rfl, hnd, hg⟩

theorem applyAlertSeq_preserves_good (ops : List (Str × Bool)) (db : Option Str)
    (hops : ∀ p ∈ ops, GoodId p.1) (hdb : GoodAlertsDB db) :
    GoodAlertsDB (Thread.applyAlertSeq ops db) := by
  induction ops generalizing db with
  | nil => exact hdb
  | cons p rest ih =>
    exact ih (Thread.alertStatus db p.1 p.2)
      (fun q hq => hops q (List.mem_cons_of_mem _ hq))
      (alertStatus_preserves_good db p.1 p.2 hdb (hops p (List.mem_cons_self _ _)))

theorem goodDB_add_mem_noop (db : Option Str) (u : Str) (hdb : GoodAlertsDB db)
    (hmem : u ∈ Thread.decodeAlerts db) : Thread.alertStatus db u true = db := by
  obtain ⟨l, hl, hnd, hg⟩ := hdb
  have hdec : Thread.decodeAlerts db = l := by
    rw [hl]
    exact StrLemmas.decodeAlerts_encodeAlerts l hg
  rw [hdec] at hmem
  unfold Thread.alertStatus
  rw [hdec, alertStep_mem_true l u hmem]
  exact hl.symm

theorem goodDB_remove_absent_noop (db : Option Str) (u : Str) (hdb : GoodAlertsDB db)
    (hmem : u ∉ Thread.decodeAlerts db) : Thread.alertStatus db u false = db := by
  obtain ⟨l, hl, hnd, hg⟩ := hdb
  have hdec : Thread.decodeAlerts db = l := by
    rw [hl]
    exact StrLemmas.decodeAlerts_encodeAlerts l hg
  rw [hdec] at hmem
  unfold Thread.alertStatus
  rw [hdec, alertStep_not_mem_false l u hmem]
  exact hl.symm

theorem alertStep_not_mem_true (l : List Str) (u : Str) (hmem : u ∉ l) :
    Thread.alertStep l u true = l ++ [u] := by
  have hcont : l.contains u = false := by simpa using hmem
  unfold Thread.alertStep
  rw [hcont]
  simp

theorem alertStep_mem_false (l : List Str) (u : Str) :
    Thread.alertStep l u false = l.erase u := by
  unfold Thread.alertStep
  simp

theorem goodDB_add_absent (db : Option Str) (u : Str) (hdb : GoodAlertsDB db) (hu : GoodId u)
    (hmem : u ∉ Thread.decodeAlerts db) :
    Thread.decodeAlerts (Thread.alertStatus db u true) = Thread.decodeAlerts db ++ [u] := by
  obtain ⟨l, hl, hnd, hg⟩ := hdb
  have hdec : Thread.decodeAlerts db = l := by
    rw [hl]
    exact StrLemmas.decodeAlerts_encodeAlerts l hg
  rw [hdec] at hmem
  unfold Thread.alertStatus
  rw [hdec, alertStep_not_mem_true l u hmem]
  refine StrLemmas.decodeAlerts_encodeAlerts (l ++ [u]) ?_
  intro x hx
  rcases List.mem_append.mp hx with h1 | h2
  · exact hg x h1
  · simp at h2
    exact h2 ▸ hu

theorem goodDB_remove_present (db : Option Str) (u : Str) (hdb : GoodAlertsDB db)
    (hmem : u ∈ Thread.decodeAlerts db) :
    Thread.decodeAlerts (Thread.alertStatus db u false) = (Thread.decodeAlerts db).erase u
    ∧ u ∉ Thread.decodeAlerts (Thread.alertStatus db u false) := by
  obtain ⟨l, hl, hnd, hg⟩ := hdb
  have hdec : Thread.decodeAlerts db = l := by
    rw [hl]
    exact StrLemmas.decodeAlerts_encodeAlerts l hg
  have hde : Thread.decodeAlerts (Thread.alertStatus db u false) = l.erase u := by
    unfold Thread.alertStatus
    rw [hdec, alertStep_mem_false]
    exact StrLemmas.decodeAlerts_encodeAlerts (l.erase u)
      (fun x hx => hg x (List.mem_of_mem_erase hx))
  constructor
  · rw [hde, hdec]
  · rw [hde]
    exact List.Nodup.not_mem_erase hnd

end AlertLemmas

/-- C6: after any sequence of `scheduleClose(at, requestedBy)` and
`cancelScheduledClose()` operations on a thread, the three columns
`scheduled_close_at`, `scheduled_close_id`, `scheduled_close_name` are either
all null or all non-null: `scheduleClose` sets all three together and
`cancelScheduledClose` clears all three together. -/
theorem scheduled_close_fields_all_or_none (th : ThreadRec) (ops : List SchedOp)
    (h : AllOrNoneSched th) : AllOrNoneSched (Thread.applySchedSeq ops th) := by
  induction ops generalizing th with
  | nil => exact h
  | cons op rest ih =>
    cases op with
    | schedule t u =>
      exact ih (Thread.scheduleCloseOp t u th) (Or.inl (by simp [Thread.scheduleCloseOp]))
    | cancel =>
      exact ih (Thread.cancelScheduledCloseOp th) (Or.inr (by simp [Thread.cancelScheduledCloseOp]))

/-- Witness for C6 at a concrete thread and operation sequence. -/
theorem scheduled_close_fields_all_or_none_witness :
    AllOrNoneSched thread0
    ∧ AllOrNoneSched (Thread.applySchedSeq
        [SchedOp.schedule 5000 author0, SchedOp.cancel, SchedOp.schedule 9000 author0] thread0) :=
  ⟨by decide, scheduled_close_fields_all_or_none thread0
    [SchedOp.schedule 5000 author0, SchedOp.cancel, SchedOp.schedule 9000 author0] (by decide)⟩

/-- C7: for every thread override column state, operator id `u` and role id `r`:
after `setStaffRoleOverride(u, r)`, `getStaffRoleOverride(u)` (on the thread as
reloaded from the updated row) returns `r`; and after
`deleteStaffRoleOverride(u)`, `getStaffRoleOverride(u)` returns none. The
hypothesis excludes a stored empty-string role id (JS-falsy), which no caller
can produce: `deleteStaffRoleOverride` skips its write when the stored value is
falsy. -/
theorem staff_role_override_roundtrip (field : Option OvMap) (u r : Str)
    (h : Thread.getStaffRoleOverride field u ≠ some []) :
    Thread.getStaffRoleOverride (Thread.setStaffRoleOverride field u r) u = some r
    ∧ Thread.getStaffRoleOverride (Thread.deleteStaffRoleOverride field u) u = none
    ∧ (r ≠ [] → Thread.getStaffRoleOverride
        (Thread.deleteStaffRoleOverride (Thread.setStaffRoleOverride field u r) u) u = none) := by
  refine ⟨?_, ?_, ?_⟩
  · cases field with
    | none => simp [Thread.setStaffRoleOverride, Thread.getStaffRoleOverride,
        OverrideLemmas.ovGet_ovSet]
    | some m => simp [Thread.setStaffRoleOverride, Thread.getStaffRoleOverride,
        OverrideLemmas.ovGet_ovSet]
  · cases field with
    | none => simp [Thread.deleteStaffRoleOverride, Thread.getStaffRoleOverride]
    | some m =>
      simp only [Thread.deleteStaffRoleOverride]
      cases hg : Thread.ovGet m u with
      | none =>
        rw [if_neg (by simp [jsTruthy, hg])]
        simp [Thread.getStaffRoleOverride, hg]
      | some v =>
        have hv : v ≠ [] := by
          intro hv0
          apply h
          simp [Thread.getStaffRoleOverride, hg, hv0]
        rw [if_pos (by simp [jsTruthy, hg, hv])]
        simp [Thread.getStaffRoleOverride, OverrideLemmas.ovGet_ovDel]
  · intro hr
    cases field with
    | none =>
      show Thread.getStaffRoleOverride
        (Thread.deleteStaffRoleOverride (some (Thread.ovSet [] u r)) u) u = none
      simp only [Thread.deleteStaffRoleOverride]
      rw [if_pos (by simp [jsTruthy, OverrideLemmas.ovGet_ovSet, hr])]
      simp [Thread.getStaffRoleOverride, OverrideLemmas.ovGet_ovDel]
    | some m =>
      show Thread.getStaffRoleOverride
        (Thread.deleteStaffRoleOverride (some (Thread.ovSet m u r)) u) u = none
      simp only [Thread.deleteStaffRoleOverride]
      rw [if_pos (by simp [jsTruthy, OverrideLemmas.ovGet_ovSet, hr])]
      simp [Thread.getStaffRoleOverride, OverrideLemmas.ovGet_ovDel]

/-- Witness for C7 at a concrete override map. -/
theorem staff_role_override_roundtrip_witness :
    Thread.getStaffRoleOverride (some [(str "7", str "8")]) (str "2002") ≠ some []
    ∧ (Thread.getStaffRoleOverride
        (Thread.setStaffRoleOverride (some [(str "7", str "8")]) (str "2002") (str "55")) (str "2002")
          = some (str "55")
      ∧ Thread.getStaffRoleOverride
          (Thread.deleteStaffRoleOverride (some [(str "7", str "8")]) (str "2002")) (str "2002")
            = none
      ∧ (str "55" ≠ [] → Thread.getStaffRoleOverride
          (Thread.deleteStaffRoleOverride
            (Thread.setStaffRoleOverride (some [(str "7", str "8")]) (str "2002") (str "55"))
            (str "2002")) (str "2002") = none)) :=
  ⟨by decide, staff_role_override_roundtrip (some [(str "7", str "8")]) (str "2002") (str "55")
    (by decide)⟩

/-- C10: after any sequence of `alertStatus(userId, status)` calls (over
well-formed operator ids) starting from a null `alert_users` column, the
persisted column encodes a set: the decoded watcher list is duplicate-free; the
column is null exactly when the watcher set is empty; `alertStatus(u, true)`
adds `u` only if not already present (adding an absent `u` appends exactly `u`,
and a repeated add leaves the persisted state unchanged); and
`alertStatus(u, false)` removes `u` when present (the decoded list afterwards
is the erase, no longer containing `u`) and is a no-op on the persisted state
when `u` is absent. -/
theorem alert_users_set_semantics (ops : List (Str × Bool))
    (hops : ∀ p ∈ ops, GoodId p.1) :
    (Thread.decodeAlerts (Thread.applyAlertSeq ops none)).Nodup
    ∧ (Thread.applyAlertSeq ops none = none
        ↔ Thread.decodeAlerts (Thread.applyAlertSeq ops none) = [])
    ∧ (∀ u, u ∈ Thread.decodeAlerts (Thread.applyAlertSeq ops none) →
        Thread.alertStatus (Thread.applyAlertSeq ops none) u true = Thread.applyAlertSeq ops none)
    ∧ (∀ u, u ∉ Thread.decodeAlerts (Thread.applyAlertSeq ops none) →
        Thread.alertStatus (Thread.applyAlertSeq ops none) u false = Thread.applyAlertSeq ops none)
    ∧ (∀ u, GoodId u → u ∉ Thread.decodeAlerts (Thread.applyAlertSeq ops none) →
        Thread.decodeAlerts (Thread.alertStatus (Thread.applyAlertSeq ops none) u true)
          = Thread.decodeAlerts (Thread.applyAlertSeq ops none) ++ [u])
    ∧ (∀ u, u ∈ Thread.decodeAlerts (Thread.applyAlertSeq ops none) →
        Thread.decodeAlerts (Thread.alertStatus (Thread.applyAlertSeq ops none) u false)
          = (Thread.decodeAlerts (Thread.applyAlertSeq ops none)).erase u
        ∧ u ∉ Thread.decodeAlerts (Thread.alertStatus (Thread.applyAlertSeq ops none) u false)) := by
  have hgood : GoodAlertsDB (Thread.applyAlertSeq ops none) :=
    AlertLemmas.applyAlertSeq_preserves_good ops none hops ⟨[], rfl, List.nodup_nil, by simp⟩
  obtain ⟨l, hl, hnd, hg⟩ := hgood
  have hdec : Thread.decodeAlerts (Thread.applyAlertSeq ops none) = l := by
    rw [hl]
    exact StrLemmas.decodeAlerts_encodeAlerts l hg
  refine ⟨by rw [hdec]; exact hnd, ?_, ?_, ?_, ?_, ?_⟩
  · rw [hdec, hl]
    cases l with
    | nil => simp [Thread.encodeAlerts]
    | cons x xs => simp [Thread.encodeAlerts]
  · intro u hu
    exact AlertLemmas.goodDB_add_mem_noop _ u ⟨l, hl, hnd, hg⟩ hu
  · intro u hu
    exact AlertLemmas.goodDB_remove_absent_noop _ u ⟨l, hl, hnd, hg⟩ hu
  · intro u hgu hu
    exact AlertLemmas.goodDB_add_absent _ u ⟨l, hl, hnd, hg⟩ hgu hu
  · intro u hu
    exact AlertLemmas.goodDB_remove_present _ u ⟨l, hl, hnd, hg⟩ hu

/-- Witness for C10 at a concrete call sequence (add, add duplicate, add
second, remove absent, remove first). -/
theorem alert_users_set_semantics_witness :
    (∀ p ∈ [(str "1", true), (str "1", true), (str "2", true), (str "3", false), (str "1", false)],
      GoodId p.1)
    ∧ ((Thread.decodeAlerts (Thread.applyAlertSeq
          [(str "1", true), (str "1", true), (str "2", true), (str "3", false), (str "1", false)]
          none)).Nodup
      ∧ (Thread.applyAlertSeq
            [(str "1", true), (str "1", true), (str "2", true), (str "3", false), (str "1", false)]
            none = none
          ↔ Thread.decodeAlerts (Thread.applyAlertSeq
              [(str "1", true), (str "1", true), (str "2", true), (str "3", false), (str "1", false)]
              none) = [])
      ∧ (∀ u, u ∈ Thread.decodeAlerts (Thread.applyAlertSeq
            [(str "1", true), (str "1", true), (str "2", true), (str "3", false), (str "1", false)]
            none) →
          Thread.alertStatus (Thread.applyAlertSeq
            [(str "1", true), (str "1", true), (str "2", true), (str "3", false), (str "1", false)]
            none) u true
          = Thread.applyAlertSeq
              [(str "1", true), (str "1", true), (str "2", true), (str "3", false), (str "1", false)]
              none)
      ∧ (∀ u, u ∉ Thread.decodeAlerts (Thread.applyAlertSeq
            [(str "1", true), (str "1", true), (str "2", true), (str "3", false), (str "1", false)]
            none) →
          Thread.alertStatus (Thread.applyAlertSeq
            [(str "1", true), (str "1", true), (str "2", true), (str "3", false), (str "1", false)]
            none) u false
          = Thread.applyAlertSeq
              [(str "1", true), (str "1", true), (str "2", true), (str "3", false), (str "1", false)]
              none)
      ∧ (∀ u, GoodId u → u ∉ Thread.decodeAlerts (Thread.applyAlertSeq
            [(str "1", true), (str "1", true), (str "2", true), (str "3", false), (str "1", false)]
            none) →
          Thread.decodeAlerts (Thread.alertStatus (Thread.applyAlertSeq
            [(str "1", true), (str "1", true), (str "2", true), (str "3", false), (str "1", false)]
            none) u true)
          = Thread.decodeAlerts (Thread.applyAlertSeq
              [(str "1", true), (str "1", true), (str "2", true), (str "3", false), (str "1", false)]
              none) ++ [u])
      ∧ (∀ u, u ∈ Thread.decodeAlerts (Thread.applyAlertSeq
            [(str "1", true), (str "1", true), (str "2", true), (str "3", false), (str "1", false)]
            none) →
          Thread.decodeAlerts (Thread.alertStatus (Thread.applyAlertSeq
            [(str "1", true), (str "1", true), (str "2", true), (str "3", false), (str "1", false)]
            none) u false)
          = (Thread.decodeAlerts (Thread.applyAlertSeq
              [(str "1", true), (str "1", true), (str "2", true), (str "3", false), (str "1", false)]
              none)).erase u
          ∧ u ∉ Thread.decodeAlerts (Thread.alertStatus (Thread.applyAlertSeq
              [(str "1", true), (str "1", true), (str "2", true), (str "3", false), (str "1", false)]
              none) u false))) :=
  ⟨by decide, alert_users_set_semantics
    [(str "1", true), (str "1", true), (str "2", true), (str "3", false), (str "1", false)]
    (by decide)⟩

/-- C1: for every outbound reply (`replyToUser` with any moderator, text,
attachments, anonymity flag) on a thread, if the DM send to the remote user
fails, the operation aborts: no relay-channel message carrying the reply is
sent, no transcript row is written for the reply (the `TO_USER` rows are
unchanged; only the failure notice's `SYSTEM` row is appended), the failure is
reported to the relay channel as a system notice, and the thread row is
untouched. -/
theorem reply_dm_failure_aborts (env : Env) (mod : Moderator) (text : Str)
    (atts : List Attachment) (anon : Bool) (w : World)
    (hdm : w.dmReachable = false) (hch : w.channelExists = true) :
    (Thread.replyToUser env mod text atts anon w).dmSent = w.dmSent
    ∧ (Thread.replyToUser env mod text atts anon w).channelSent
        = w.channelSent
          ++ [.plain (str "Error while replying to user: " ++ Thread.dmUnreachableMessage)]
    ∧ (Thread.replyToUser env mod text atts anon w).transcript
        = w.transcript
          ++ [Thread.sysRow (str "Error while replying to user: " ++ Thread.dmUnreachableMessage)
              w.nextId env.now]
    ∧ ((Thread.replyToUser env mod text atts anon w).transcript.filter
          (fun r => decide (r.message_type = MessageType.TO_USER)))
        = w.transcript.filter (fun r => decide (r.message_type = MessageType.TO_USER))
    ∧ (Thread.replyToUser env mod text atts anon w).thread = w.thread := by
  simp [Thread.replyToUser, Thread.postToUser, hdm, Thread.postSystemMessage,
    Thread.postToThreadChannel, hch, Thread.systemBody, Thread.sysRow, List.filter_append]

/-- Witness for C1 at a concrete unreachable-user world. -/
theorem reply_dm_failure_aborts_witness :
    (mkWorld thread0 false true).dmReachable = false
    ∧ (mkWorld thread0 false true).channelExists = true
    ∧ ((Thread.replyToUser env0 mod0 (str "hello") [] false (mkWorld thread0 false true)).dmSent
          = (mkWorld thread0 false true).dmSent
      ∧ (Thread.replyToUser env0 mod0 (str "hello") [] false (mkWorld thread0 false true)).channelSent
          = (mkWorld thread0 false true).channelSent
            ++ [.plain (str "Error while replying to user: " ++ Thread.dmUnreachableMessage)]
      ∧ (Thread.replyToUser env0 mod0 (str "hello") [] false (mkWorld thread0 false true)).transcript
          = (mkWorld thread0 false true).transcript
            ++ [Thread.sysRow (str "Error while replying to user: " ++ Thread.dmUnreachableMessage)
                (mkWorld thread0 false true).nextId env0.now]
      ∧ ((Thread.replyToUser env0 mod0 (str "hello") [] false (mkWorld thread0 false true)).transcript.filter
            (fun r => decide (r.message_type = MessageType.TO_USER)))
          = (mkWorld thread0 false true).transcript.filter
              (fun r => decide (r.message_type = MessageType.TO_USER))
      ∧ (Thread.replyToUser env0 mod0 (str "hello") [] false (mkWorld thread0 false true)).thread
          = (mkWorld thread0 false true).thread) :=
  ⟨rfl, rfl, reply_dm_failure_aborts env0 mod0 (str "hello") [] false
    (mkWorld thread0 false true) rfl rfl⟩

/-- C2: for every relay operation (outbound `replyToUser` or inbound
`receiveUserReply`) on a thread, if the relay-channel send fails because the
channel no longer exists, the thread is automatically closed silently (status
becomes `CLOSED`, nothing further is posted to the relay channel), no
transcript row is written for that event, and the DM side is not rolled back:
the outbound DM that was already delivered stays delivered (and the inbound
path additionally notifies the user of the auto-close by DM). -/
theorem relay_channel_gone_auto_close (env : Env) (mod : Moderator) (text : Str)
    (atts : List Attachment) (anon : Bool) (msg : InboundMsg) (w : World)
    (hch : w.channelExists = false) (hdm : w.dmReachable = true) :
    ((Thread.replyToUser env mod text atts anon w).thread.status = .CLOSED
      ∧ (Thread.replyToUser env mod text atts anon w).transcript = w.transcript
      ∧ (Thread.replyToUser env mod text atts anon w).channelSent = w.channelSent
      ∧ (Thread.replyToUser env mod text atts anon w).dmSent
          = w.dmSent ++ [.plain (Thread.replyDmContent env w.thread mod text anon)])
    ∧ ((Thread.receiveUserReply env msg w).thread.status = .CLOSED
      ∧ (Thread.receiveUserReply env msg w).transcript = w.transcript
      ∧ (Thread.receiveUserReply env msg w).channelSent = w.channelSent
      ∧ (Thread.receiveUserReply env msg w).dmSent
          = w.dmSent ++ [.plain Thread.autoCloseUserNotice]) := by
  constructor
  · simp [Thread.replyToUser, Thread.postToUser, hdm, Thread.postToThreadChannel, hch,
      Thread.closeAuto, Thread.closeUpdate, Thread.deleteChannelStep]
  · simp [Thread.receiveUserReply, Thread.postToThreadChannel, hch,
      Thread.closeAuto, Thread.closeUpdate, Thread.deleteChannelStep]

/-- Witness for C2 at a concrete deleted-channel world. -/
theorem relay_channel_gone_auto_close_witness :
    (mkWorld thread0 true false).channelExists = false
    ∧ (mkWorld thread0 true false).dmReachable = true
    ∧ (((Thread.replyToUser env0 mod0 (str "hi") [] false (mkWorld thread0 true false)).thread.status
          = .CLOSED
      ∧ (Thread.replyToUser env0 mod0 (str "hi") [] false (mkWorld thread0 true false)).transcript
          = (mkWorld thread0 true false).transcript
      ∧ (Thread.replyToUser env0 mod0 (str "hi") [] false (mkWorld thread0 true false)).channelSent
          = (mkWorld thread0 true false).channelSent
      ∧ (Thread.replyToUser env0 mod0 (str "hi") [] false (mkWorld thread0 true false)).dmSent
          = (mkWorld thread0 true false).dmSent
            ++ [.plain (Thread.replyDmContent env0 (mkWorld thread0 true false).thread mod0
                (str "hi") false)])
    ∧ ((Thread.receiveUserReply env0 msg0 (mkWorld thread0 true false)).thread.status = .CLOSED
      ∧ (Thread.receiveUserReply env0 msg0 (mkWorld thread0 true false)).transcript
          = (mkWorld thread0 true false).transcript
      ∧ (Thread.receiveUserReply env0 msg0 (mkWorld thread0 true false)).channelSent
          = (mkWorld thread0 true false).channelSent
      ∧ (Thread.receiveUserReply env0 msg0 (mkWorld thread0 true false)).dmSent
          = (mkWorld thread0 true false).dmSent ++ [.plain Thread.autoCloseUserNotice])) :=
  ⟨rfl, rfl, relay_channel_gone_auto_close env0 mod0 (str "hi") [] false msg0
    (mkWorld thread0 true false) rfl rfl⟩

/-- C4: calling `close` twice in sequence on the same thread leaves the
thread's status equal to `CLOSED`, does not raise an error (both calls return
ok), and does not post the "closing" notice to the relay channel a second time:
the first non-silent close posts it once and deletes the channel, so the second
call's notice send hits the deleted channel and nothing further reaches the
relay channel. -/
theorem close_twice_idempotent (env : Env) (a : Author) (w : World)
    (hch : w.channelExists = true) :
    ∃ w1 w2, Thread.close env (some a) false w = .ok w1
      ∧ Thread.close env (some a) false w1 = .ok w2
      ∧ w1.channelSent = w.channelSent ++ [.plain Thread.closingNotice]
      ∧ w1.thread.status = .CLOSED
      ∧ w2.thread.status = .CLOSED
      ∧ w2.channelSent = w1.channelSent := by
  refine ⟨_, _, rfl, rfl, ?_, ?_, ?_, ?_⟩ <;>
    simp [Thread.deleteChannelStep, Thread.closeUpdate, Thread.postToThreadChannel,
      Thread.closeAuto, hch]

/-- Witness for C4 at a concrete world. -/
theorem close_twice_idempotent_witness :
    (mkWorld thread0 true true).channelExists = true
    ∧ ∃ w1 w2, Thread.close env0 (some author0) false (mkWorld thread0 true true) = .ok w1
      ∧ Thread.close env0 (some author0) false w1 = .ok w2
      ∧ w1.channelSent = (mkWorld thread0 true true).channelSent ++ [.plain Thread.closingNotice]
      ∧ w1.thread.status = .CLOSED
      ∧ w2.thread.status = .CLOSED
      ∧ w2.channelSent = w1.channelSent :=
  ⟨rfl, close_twice_idempotent env0 author0 (mkWorld thread0 true true) rfl⟩

namespace WorldLemmas

theorem deleteChannelStep_thread (w : World) : (Thread.deleteChannelStep w).thread = w.thread := by
  unfold Thread.deleteChannelStep
  split <;> rfl

theorem closeUpdate_fields (env : Env) (cid cname : Option Str) (w : World) :
    (Thread.deleteChannelStep (Thread.closeUpdate env cid cname w)).thread.status = .CLOSED
    ∧ (Thread.deleteChannelStep (Thread.closeUpdate env cid cname w)).thread.scheduled_close_at
        = some env.now
    ∧ (Thread.deleteChannelStep (Thread.closeUpdate env cid cname w)).thread.scheduled_close_id
        = cid
    ∧ (Thread.deleteChannelStep (Thread.closeUpdate env cid cname w)).thread.scheduled_close_name
        = cname
    ∧ (Thread.deleteChannelStep (Thread.closeUpdate env cid cname w)).thread.alert_users = none
    ∧ (Thread.deleteChannelStep (Thread.closeUpdate env cid cname w)).thread.staff_role_overrides
        = none := by
  rw [deleteChannelStep_thread]
  simp [Thread.closeUpdate]

end WorldLemmas

/-- C5: every call to `close(closer, silent)` on an Open or Suspended thread
persists status = `CLOSED`, stamps the close time (into `scheduled_close_at`)
and the close actor (into `scheduled_close_id`/`scheduled_close_name`), and
clears `alert_users` and `staff_role_overrides` to null; when the closer
argument is absent, the recorded actor identity is reconstructed from the
already-persisted scheduled-close columns (splitting the cached
`username#discriminator` string, which re-serializes to the persisted name). -/
theorem close_persists_closed_state (env : Env) (w : World) (silent : Bool)
    (hst : w.thread.status = .OPEN ∨ w.thread.status = .SUSPENDED) :
    (∀ a : Author, ∃ w', Thread.close env (some a) silent w = .ok w'
      ∧ w'.thread.status = .CLOSED
      ∧ w'.thread.scheduled_close_at = some env.now
      ∧ w'.thread.scheduled_close_id = some a.id
      ∧ w'.thread.scheduled_close_name = some (a.username ++ str "#" ++ a.discriminator)
      ∧ w'.thread.alert_users = none
      ∧ w'.thread.staff_role_overrides = none)
    ∧ (∀ n, w.channelExists = true → w.thread.scheduled_close_name = some n → '#' ∈ n →
      ∃ w', Thread.close env none silent w = .ok w'
        ∧ w'.thread.status = .CLOSED
        ∧ w'.thread.scheduled_close_at = some env.now
        ∧ w'.thread.scheduled_close_id = w.thread.scheduled_close_id
        ∧ w'.thread.scheduled_close_name = some n
        ∧ w'.thread.alert_users = none
        ∧ w'.thread.staff_role_overrides = none) := by
  constructor
  · intro a
    cases silent with
    | true =>
      obtain ⟨h1, h2, h3, h4, h5, h6⟩ := WorldLemmas.closeUpdate_fields env (some a.id)
        (some (a.username ++ str "#" ++ a.discriminator)) w
      exact ⟨_, rfl, h1, h2, h3, h4, h5, h6⟩
    | false =>
      obtain ⟨h1, h2, h3, h4, h5, h6⟩ := WorldLemmas.closeUpdate_fields env (some a.id)
        (some (a.username ++ str "#" ++ a.discriminator))
        (Thread.postToThreadChannel env (.plain Thread.closingNotice) w).2
      exact ⟨_, rfl, h1, h2, h3, h4, h5, h6⟩
  · intro n hch hname hhash
    have hre := StrLemmas.splitChar_rejoin '#' n hhash
    have hsome : some (joinStr (str "#") (splitChar '#' n).dropLast ++ str "#"
        ++ (splitChar '#' n).getLastD []) = some n := by
      refine congrArg some ?_
      calc joinStr (str "#") (splitChar '#' n).dropLast ++ str "#" ++ (splitChar '#' n).getLastD []
          = joinStr ['#'] (splitChar '#' n).dropLast ++ '#' :: (splitChar '#' n).getLastD [] := by
            simp [str, List.append_assoc]
        _ = n := hre
    cases silent with
    | true =>
      obtain ⟨h1, h2, h3, h4, h5, h6⟩ := WorldLemmas.closeUpdate_fields env
        w.thread.scheduled_close_id
        (some (joinStr (str "#") (splitChar '#' n).dropLast ++ str "#"
          ++ (splitChar '#' n).getLastD [])) w
      refine ⟨_, ?_, h1, h2, h3, ?_, h5, h6⟩
      · simp only [Thread.close, if_true, eq_self_iff_true, ite_true, hname]
      · rw [h4]
        exact hsome
    | false =>
      obtain ⟨h1, h2, h3, h4, h5, h6⟩ := WorldLemmas.closeUpdate_fields env
        w.thread.scheduled_close_id
        (some (joinStr (str "#") (splitChar '#' n).dropLast ++ str "#"
          ++ (splitChar '#' n).getLastD []))
        (Thread.postToThreadChannel env (.plain Thread.closingNotice) w).2
      refine ⟨_, ?_, h1, h2, h3, ?_, h5, h6⟩
      · have hpost : (Thread.postToThreadChannel env (.plain Thread.closingNotice) w).2.thread
            = w.thread := by
          simp [Thread.postToThreadChannel, hch]
        simp only [Thread.close, Bool.false_eq_true, if_false, ite_false, hpost, hname]
      · rw [h4]
        exact hsome

/-- Witness for C5 at a concrete world whose thread has persisted
scheduled-close columns. -/
theorem close_persists_closed_state_witness :
    ((mkWorld thread3 true true).thread.status = .OPEN
      ∨ (mkWorld thread3 true true).thread.status = .SUSPENDED)
    ∧ ((∀ a : Author, ∃ w', Thread.close env0 (some a) false (mkWorld thread3 true true) = .ok w'
      ∧ w'.thread.status = .CLOSED
      ∧ w'.thread.scheduled_close_at = some env0.now
      ∧ w'.thread.scheduled_close_id = some a.id
      ∧ w'.thread.scheduled_close_name = some (a.username ++ str "#" ++ a.discriminator)
      ∧ w'.thread.alert_users = none
      ∧ w'.thread.staff_role_overrides = none)
    ∧ (∀ n, (mkWorld thread3 true true).channelExists = true →
        (mkWorld thread3 true true).thread.scheduled_close_name = some n → '#' ∈ n →
      ∃ w', Thread.close env0 none false (mkWorld thread3 true true) = .ok w'
        ∧ w'.thread.status = .CLOSED
        ∧ w'.thread.scheduled_close_at = some env0.now
        ∧ w'.thread.scheduled_close_id = (mkWorld thread3 true true).thread.scheduled_close_id
        ∧ w'.thread.scheduled_close_name = some n
        ∧ w'.thread.alert_users = none
        ∧ w'.thread.staff_role_overrides = none)) :=
  ⟨by decide, close_persists_closed_state env0 (mkWorld thread3 true true) false (by decide)⟩

/-- C3 counterexample: an outbound moderator reply on a thread whose scheduled
close is 100 seconds away (far outside the 30-second guard window). The claim
predicts the schedule is left intact with only a reminder notice; the code
clears all scheduled-close fields and posts the cancellation notice. -/
theorem outbound_reply_guard_window_counterexample :
    ((100000 : Int) - env0.now > 30000)
    ∧ (mkWorld thread3 true true).thread.scheduled_close_at = some 100000
    ∧ (Thread.replyToUser env0 mod0 (str "hi") [] false
        (mkWorld thread3 true true)).thread.scheduled_close_at = none
    ∧ (Thread.replyToUser env0 mod0 (str "hi") [] false
        (mkWorld thread3 true true)).thread.scheduled_close_id = none
    ∧ (Thread.replyToUser env0 mod0 (str "hi") [] false
        (mkWorld thread3 true true)).thread.scheduled_close_name = none
    ∧ (Thread.replyToUser env0 mod0 (str "hi") [] false
        (mkWorld thread3 true true)).channelSent
        = [.plain (Thread.replyThreadContent env0 thread3 mod0 (str "hi") false),
           .plain (str "Cancelling scheduled closing of this thread due to new reply")] := by
  decide

/-- C3 (amended): for every inbound user message on a thread whose
`scheduled_close_at` is set, if the scheduled close time is at most 30 seconds
after the current time the scheduled close is cancelled (all three fields
cleared) and a cancellation system notice is posted, and otherwise the schedule
is left intact and only a reminder notice is posted; for every outbound
moderator reply on such a thread the scheduled close is always cancelled and a
cancellation notice posted, regardless of the time remaining. -/
theorem activity_on_pending_close_guard (env : Env) (mod : Moderator) (text : Str)
    (atts : List Attachment) (anon : Bool) (msg : InboundMsg) (w : World) (t : Int)
    (hdm : w.dmReachable = true) (hch : w.channelExists = true)
    (hat : w.thread.scheduled_close_at = some t)
    (halert : w.thread.alert_users = none) :
    ((Thread.replyToUser env mod text atts anon w).thread.scheduled_close_at = none
      ∧ (Thread.replyToUser env mod text atts anon w).thread.scheduled_close_id = none
      ∧ (Thread.replyToUser env mod text atts anon w).thread.scheduled_close_name = none
      ∧ (Thread.replyToUser env mod text atts anon w).channelSent
          = w.channelSent ++ [.plain (Thread.replyThreadContent env w.thread mod text anon),
              .plain (str "Cancelling scheduled closing of this thread due to new reply")])
    ∧ (t - env.now ≤ 30000 →
        (Thread.receiveUserReply env msg w).thread.scheduled_close_at = none
        ∧ (Thread.receiveUserReply env msg w).thread.scheduled_close_id = none
        ∧ (Thread.receiveUserReply env msg w).thread.scheduled_close_name = none
        ∧ (Thread.receiveUserReply env msg w).channelSent
            = w.channelSent ++ [.plain (Thread.inboundThreadContentFull env msg),
                .rich (str "<@!" ++ Thread.jsTemplate w.thread.scheduled_close_id
                  ++ str "> Thread that was scheduled to be closed got a new reply. Cancelling.")])
    ∧ (¬ (t - env.now ≤ 30000) →
        (Thread.receiveUserReply env msg w).thread = w.thread
        ∧ (Thread.receiveUserReply env msg w).channelSent
            = w.channelSent ++ [.plain (Thread.inboundThreadContentFull env msg),
                .rich (str "<@!" ++ Thread.jsTemplate w.thread.scheduled_close_id
                  ++ str "> The thread was updated, use `!close cancel` if you would like to cancel.")]) := by
  refine ⟨?_, ?_, ?_⟩
  · simp [Thread.replyToUser, Thread.postToUser, hdm, Thread.postToThreadChannel, hch, hat,
      Thread.postSystemMessage, Thread.systemBody, Thread.cancelScheduledCloseOp, Thread.sysRow]
  · intro hle
    simp [Thread.receiveUserReply, Thread.postToThreadChannel, hch, halert, jsTruthy, hat, hle,
      Thread.postSystemMessage, Thread.systemBody, Thread.cancelScheduledCloseOp, Thread.sysRow]
  · intro hgt
    simp [Thread.receiveUserReply, Thread.postToThreadChannel, hch, halert, jsTruthy, hat, hgt,
      Thread.postSystemMessage, Thread.systemBody, Thread.sysRow]

/-- Witness for the amended C3 at a concrete pending-close world. -/
theorem activity_on_pending_close_guard_witness :
    (mkWorld thread3 true true).dmReachable = true
    ∧ (mkWorld thread3 true true).channelExists = true
    ∧ (mkWorld thread3 true true).thread.scheduled_close_at = some 100000
    ∧ (mkWorld thread3 true true).thread.alert_users = none
    ∧ (((Thread.replyToUser env0 mod0 (str "ok") [] true
          (mkWorld thread3 true true)).thread.scheduled_close_at = none
      ∧ (Thread.replyToUser env0 mod0 (str "ok") [] true
          (mkWorld thread3 true true)).thread.scheduled_close_id = none
      ∧ (Thread.replyToUser env0 mod0 (str "ok") [] true
          (mkWorld thread3 true true)).thread.scheduled_close_name = none
      ∧ (Thread.replyToUser env0 mod0 (str "ok") [] true
          (mkWorld thread3 true true)).channelSent
          = (mkWorld thread3 true true).channelSent
            ++ [.plain (Thread.replyThreadContent env0 (mkWorld thread3 true true).thread mod0
                (str "ok") true),
              .plain (str "Cancelling scheduled closing of this thread due to new reply")])
    ∧ ((100000 : Int) - env0.now ≤ 30000 →
        (Thread.receiveUserReply env0 msg0 (mkWorld thread3 true true)).thread.scheduled_close_at
            = none
        ∧ (Thread.receiveUserReply env0 msg0 (mkWorld thread3 true true)).thread.scheduled_close_id
            = none
        ∧ (Thread.receiveUserReply env0 msg0
            (mkWorld thread3 true true)).thread.scheduled_close_name = none
        ∧ (Thread.receiveUserReply env0 msg0 (mkWorld thread3 true true)).channelSent
            = (mkWorld thread3 true true).channelSent
              ++ [.plain (Thread.inboundThreadContentFull env0 msg0),
                .rich (str "<@!"
                    ++ Thread.jsTemplate (mkWorld thread3 true true).thread.scheduled_close_id
                  ++ str "> Thread that was scheduled to be closed got a new reply. Cancelling.")])
    ∧ (¬ ((100000 : Int) - env0.now ≤ 30000) →
        (Thread.receiveUserReply env0 msg0 (mkWorld thread3 true true)).thread
            = (mkWorld thread3 true true).thread
        ∧ (Thread.receiveUserReply env0 msg0 (mkWorld thread3 true true)).channelSent
            = (mkWorld thread3 true true).channelSent
              ++ [.plain (Thread.inboundThreadContentFull env0 msg0),
                .rich (str "<@!"
                    ++ Thread.jsTemplate (mkWorld thread3 true true).thread.scheduled_close_id
                  ++ str "> The thread was updated, use `!close cancel` if you would like to cancel.")])) :=
  ⟨rfl, rfl, rfl, rfl, activity_on_pending_close_guard env0 mod0 (str "ok") [] true msg0
    (mkWorld thread3 true true) 100000 rfl rfl rfl rfl⟩

theorem mention_ne_nil (i : Str) : Thread.mention i ≠ [] := by
  simp [Thread.mention, str]

theorem mention_append_ne_nil (i rest : Str) : Thread.mention i ++ rest ≠ [] := by
  simp [Thread.mention, str]

/-- C8: for every inbound user message on a thread with a non-empty watcher
set, the posted alert notice mentions the watchers joined as: one watcher `A`
gives `<@A>`; two give `<@A> and <@B>`; three give `<@A>, <@B> and <@C>`
(comma-separated with `" and "` before the last); the operator id that
scheduled a pending close is excluded from the list even if present in the
watcher set (shown with the pending close live, where only the other watcher is
mentioned and the reminder notice follows); and no notice is posted when the
resulting list is empty (only the relayed message reaches the channel and only
its row the transcript). The first four conjuncts settle the mention string of
the source's split/filter/map-join pipeline; the `∀ w` conjuncts show
`receiveUserReply` posting exactly that notice to the relay channel. -/
theorem inbound_alert_mention_formatting (A B C : Str) (env : Env) (msg : InboundMsg)
    (hA : GoodId A) (hB : GoodId B) (hC : GoodId C) (hAB : A ≠ B) :
    Thread.buildAlerts (joinStr (str ", ") [A]) none = Thread.mention A
    ∧ Thread.buildAlerts (joinStr (str ", ") [A, B]) none
        = Thread.mention A ++ str " and " ++ Thread.mention B
    ∧ Thread.buildAlerts (joinStr (str ", ") [A, B, C]) none
        = Thread.mention A ++ str ", " ++ Thread.mention B ++ str " and " ++ Thread.mention C
    ∧ Thread.buildAlerts (joinStr (str ", ") [A, B]) (some A) = Thread.mention B
    ∧ (∀ w : World, w.channelExists = true → w.thread.scheduled_close_at = none →
        w.thread.scheduled_close_id = none →
        w.thread.alert_users = some (joinStr (str ", ") [A]) →
        (Thread.receiveUserReply env msg w).channelSent
          = w.channelSent ++ [.plain (Thread.inboundThreadContentFull env msg),
              .plain (Thread.mention A ++ str ", there is a new message from **"
                ++ w.thread.user_name ++ str "**!")])
    ∧ (∀ w : World, w.channelExists = true → w.thread.scheduled_close_at = none →
        w.thread.scheduled_close_id = none →
        w.thread.alert_users = some (joinStr (str ", ") [A, B]) →
        (Thread.receiveUserReply env msg w).channelSent
          = w.channelSent ++ [.plain (Thread.inboundThreadContentFull env msg),
              .plain (Thread.mention A ++ str " and " ++ Thread.mention B
                ++ str ", there is a new message from **"
                ++ w.thread.user_name ++ str "**!")])
    ∧ (∀ w : World, w.channelExists = true → w.thread.scheduled_close_at = none →
        w.thread.scheduled_close_id = none →
        w.thread.alert_users = some (joinStr (str ", ") [A, B, C]) →
        (Thread.receiveUserReply env msg w).channelSent
          = w.channelSent ++ [.plain (Thread.inboundThreadContentFull env msg),
              .plain (Thread.mention A ++ str ", " ++ Thread.mention B ++ str " and "
                ++ Thread.mention C ++ str ", there is a new message from **"
                ++ w.thread.user_name ++ str "**!")])
    ∧ (∀ (w : World) (t : Int), w.channelExists = true →
        w.thread.scheduled_close_at = some t → ¬ (t - env.now ≤ 30000) →
        w.thread.scheduled_close_id = some A →
        w.thread.alert_users = some (joinStr (str ", ") [A, B]) →
        (Thread.receiveUserReply env msg w).channelSent
          = w.channelSent ++ [.plain (Thread.inboundThreadContentFull env msg),
              .plain (Thread.mention B ++ str ", there is a new message from **"
                ++ w.thread.user_name ++ str "**!"),
              .rich (str "<@!" ++ A
                ++ str "> The thread was updated, use `!close cancel` if you would like to cancel.")])
    ∧ (∀ (w : World) (s : Str), w.channelExists = true → w.thread.alert_users = some s →
        s ≠ [] → Thread.buildAlerts s w.thread.scheduled_close_id = [] →
        w.thread.scheduled_close_at = none →
        (Thread.receiveUserReply env msg w).channelSent
          = w.channelSent ++ [.plain (Thread.inboundThreadContentFull env msg)]
        ∧ (Thread.receiveUserReply env msg w).transcript
          = w.transcript
            ++ [Thread.fromUserRow w.thread msg (Thread.inboundLogContent env msg) w.nextId
                env.now]) := by
  have hsp1 := StrLemmas.splitCommaSpace_joinStr [A] (by simp)
    (by intro x hx; simp at hx; subst hx; exact hA.2)
  have hsp2 := StrLemmas.splitCommaSpace_joinStr [A, B] (by simp)
    (by intro x hx; simp at hx; rcases hx with h | h <;> subst h
        · exact hA.2
        · exact hB.2)
  have hsp3 := StrLemmas.splitCommaSpace_joinStr [A, B, C] (by simp)
    (by intro x hx; simp at hx; rcases hx with h | h | h <;> subst h
        · exact hA.2
        · exact hB.2
        · exact hC.2)
  have hb1 : Thread.buildAlerts (joinStr (str ", ") [A]) none = Thread.mention A := by
    simp [Thread.buildAlerts, hsp1, Thread.joinMentions, Thread.mention,
      List.enum, List.enumFrom, List.append_assoc]
  have hb2 : Thread.buildAlerts (joinStr (str ", ") [A, B]) none
      = Thread.mention A ++ str " and " ++ Thread.mention B := by
    simp [Thread.buildAlerts, hsp2, Thread.joinMentions, Thread.mention,
      List.enum, List.enumFrom, List.append_assoc]
  have hb3 : Thread.buildAlerts (joinStr (str ", ") [A, B, C]) none
      = Thread.mention A ++ str ", " ++ Thread.mention B ++ str " and " ++ Thread.mention C := by
    simp [Thread.buildAlerts, hsp3, Thread.joinMentions, Thread.mention,
      List.enum, List.enumFrom, List.append_assoc]
  have hb4 : Thread.buildAlerts (joinStr (str ", ") [A, B]) (some A) = Thread.mention B := by
    simp [Thread.buildAlerts, hsp2, Thread.joinMentions, Thread.mention, Ne.symm hAB,
      List.enum, List.enumFrom, List.append_assoc]
  have hJ1 : joinStr (str ", ") [A] ≠ [] := StrLemmas.joinStr_head_ne_nil _ _ _ hA.1
  have hJ2 : joinStr (str ", ") [A, B] ≠ [] := StrLemmas.joinStr_head_ne_nil _ _ _ hA.1
  have hJ3 : joinStr (str ", ") [A, B, C] ≠ [] := StrLemmas.joinStr_head_ne_nil _ _ _ hA.1
  refine ⟨hb1, hb2, hb3, hb4, ?_, ?_, ?_, ?_, ?_⟩
  · intro w hch hsched hsci halert
    simp [Thread.receiveUserReply, Thread.postToThreadChannel, hch, halert, jsTruthy, hJ1,
      hsci, hb1, hsched, Thread.postSystemMessage, Thread.systemBody, mention_ne_nil,
      mention_append_ne_nil, List.append_assoc]
  · intro w hch hsched hsci halert
    simp [Thread.receiveUserReply, Thread.postToThreadChannel, hch, halert, jsTruthy, hJ2,
      hsci, hb2, hsched, Thread.postSystemMessage, Thread.systemBody, mention_ne_nil,
      mention_append_ne_nil, List.append_assoc]
  · intro w hch hsched hsci halert
    simp [Thread.receiveUserReply, Thread.postToThreadChannel, hch, halert, jsTruthy, hJ3,
      hsci, hb3, hsched, Thread.postSystemMessage, Thread.systemBody, mention_ne_nil,
      mention_append_ne_nil, List.append_assoc]
  · intro w t hch hsched ht hsci halert
    simp [Thread.receiveUserReply, Thread.postToThreadChannel, hch, halert, jsTruthy, hJ2,
      hsci, hb4, hsched, ht, Thread.jsTemplate, Thread.postSystemMessage, Thread.systemBody,
      mention_ne_nil, mention_append_ne_nil, List.append_assoc]
  · intro w s hch halert hs hempty hsched
    constructor
    · simp [Thread.receiveUserReply, Thread.postToThreadChannel, hch, halert, jsTruthy, hs,
        hempty, hsched]
    · simp [Thread.receiveUserReply, Thread.postToThreadChannel, hch, halert, jsTruthy, hs,
        hempty, hsched]

/-- Witness for C8 at concrete watcher ids. -/
theorem inbound_alert_mention_formatting_witness :
    GoodId (str "1") ∧ GoodId (str "2") ∧ GoodId (str "3") ∧ str "1" ≠ str "2"
    ∧ (Thread.buildAlerts (joinStr (str ", ") [str "1"]) none = Thread.mention (str "1")
      ∧ Thread.buildAlerts (joinStr (str ", ") [str "1", str "2"]) none
          = Thread.mention (str "1") ++ str " and " ++ Thread.mention (str "2")
      ∧ Thread.buildAlerts (joinStr (str ", ") [str "1", str "2", str "3"]) none
          = Thread.mention (str "1") ++ str ", " ++ Thread.mention (str "2") ++ str " and "
            ++ Thread.mention (str "3")
      ∧ Thread.buildAlerts (joinStr (str ", ") [str "1", str "2"]) (some (str "1"))
          = Thread.mention (str "2")
      ∧ (∀ w : World, w.channelExists = true → w.thread.scheduled_close_at = none →
          w.thread.scheduled_close_id = none →
          w.thread.alert_users = some (joinStr (str ", ") [str "1"]) →
          (Thread.receiveUserReply env0 msg0 w).channelSent
            = w.channelSent ++ [.plain (Thread.inboundThreadContentFull env0 msg0),
                .plain (Thread.mention (str "1") ++ str ", there is a new message from **"
                  ++ w.thread.user_name ++ str "**!")])
      ∧ (∀ w : World, w.channelExists = true → w.thread.scheduled_close_at = none →
          w.thread.scheduled_close_id = none →
          w.thread.alert_users = some (joinStr (str ", ") [str "1", str "2"]) →
          (Thread.receiveUserReply env0 msg0 w).channelSent
            = w.channelSent ++ [.plain (Thread.inboundThreadContentFull env0 msg0),
                .plain (Thread.mention (str "1") ++ str " and " ++ Thread.mention (str "2")
                  ++ str ", there is a new message from **"
                  ++ w.thread.user_name ++ str "**!")])
      ∧ (∀ w : World, w.channelExists = true → w.thread.scheduled_close_at = none →
          w.thread.scheduled_close_id = none →
          w.thread.alert_users = some (joinStr (str ", ") [str "1", str "2", str "3"]) →
          (Thread.receiveUserReply env0 msg0 w).channelSent
            = w.channelSent ++ [.plain (Thread.inboundThreadContentFull env0 msg0),
                .plain (Thread.mention (str "1") ++ str ", " ++ Thread.mention (str "2")
                  ++ str " and " ++ Thread.mention (str "3")
                  ++ str ", there is a new message from **"
                  ++ w.thread.user_name ++ str "**!")])
      ∧ (∀ (w : World) (t : Int), w.channelExists = true →
          w.thread.scheduled_close_at = some t → ¬ (t - env0.now ≤ 30000) →
          w.thread.scheduled_close_id = some (str "1") →
          w.thread.alert_users = some (joinStr (str ", ") [str "1", str "2"]) →
          (Thread.receiveUserReply env0 msg0 w).channelSent
            = w.channelSent ++ [.plain (Thread.inboundThreadContentFull env0 msg0),
                .plain (Thread.mention (str "2") ++ str ", there is a new message from **"
                  ++ w.thread.user_name ++ str "**!"),
                .rich (str "<@!" ++ str "1"
                  ++ str "> The thread was updated, use `!close cancel` if you would like to cancel.")])
      ∧ (∀ (w : World) (s : Str), w.channelExists = true → w.thread.alert_users = some s →
          s ≠ [] → Thread.buildAlerts s w.thread.scheduled_close_id = [] →
          w.thread.scheduled_close_at = none →
          (Thread.receiveUserReply env0 msg0 w).channelSent
            = w.channelSent ++ [.plain (Thread.inboundThreadContentFull env0 msg0)]
          ∧ (Thread.receiveUserReply env0 msg0 w).transcript
            = w.transcript
              ++ [Thread.fromUserRow w.thread msg0 (Thread.inboundLogContent env0 msg0) w.nextId
                  env0.now])) :=
  ⟨by decide, by decide, by decide, by decide,
    inbound_alert_mention_formatting (str "1") (str "2") (str "3") env0 msg0
      (by decide) (by decide) (by decide) (by decide)⟩

/-- C9 counterexample: an inbound message with blank text and one embed. The
relay-channel text substitutes the placeholder, but the transcript row's body
stores the original empty string, not the placeholder — refuting the claim that
the placeholder is substituted as both the displayed and the stored text. -/
theorem embed_placeholder_counterexample :
    Thread.jsTrimEmpty msg0.content = true
    ∧ msg0.embeds ≠ 0
    ∧ (Thread.receiveUserReply env0 msg0 (mkWorld thread0 true true)).channelSent
        = [.plain (str "**bob#1234:** <message contains embeds>")]
    ∧ ((Thread.receiveUserReply env0 msg0 (mkWorld thread0 true true)).transcript.map
        (fun r => r.body)) = [[]]
    ∧ ([] : Str) ≠ Thread.embedsPlaceholder := by
  decide

/-- C9 (amended): for every inbound message whose text content is empty after
trimming but which contains embedded rich content (and no attachments), the
placeholder marker is substituted as the text displayed in the relay channel,
while the transcript row's body stores the original message content (here the
empty string), not the placeholder. -/
theorem embed_placeholder_display_only (env : Env) (msg : InboundMsg) (w : World)
    (htrim : Thread.jsTrimEmpty msg.content = true) (hemb : msg.embeds ≠ 0)
    (hatt : msg.attachments = []) (hch : w.channelExists = true)
    (halert : w.thread.alert_users = none) (hsched : w.thread.scheduled_close_at = none)
    (hts : env.config.threadTimestamps = false) :
    (Thread.receiveUserReply env msg w).channelSent
      = w.channelSent ++ [.plain (str "**" ++ msg.authorUsername ++ str "#"
          ++ msg.authorDiscriminator ++ str ":** " ++ Thread.embedsPlaceholder)]
    ∧ (Thread.receiveUserReply env msg w).transcript
      = w.transcript ++ [Thread.fromUserRow w.thread msg msg.content w.nextId env.now] := by
  constructor
  · simp [Thread.receiveUserReply, Thread.postToThreadChannel, hch, halert, jsTruthy, hsched,
      Thread.inboundThreadContentFull, Thread.inboundThreadContent, Thread.inboundDisplayContent,
      htrim, hemb, hatt, hts, List.append_assoc]
  · simp [Thread.receiveUserReply, Thread.postToThreadChannel, hch, halert, jsTruthy, hsched,
      Thread.inboundLogContent, hatt, Thread.fromUserRow]

/-- Witness for the amended C9 at the concrete blank-embed message. -/
theorem embed_placeholder_display_only_witness :
    Thread.jsTrimEmpty msg0.content = true
    ∧ msg0.embeds ≠ 0
    ∧ msg0.attachments = []
    ∧ (mkWorld thread0 true true).channelExists = true
    ∧ (mkWorld thread0 true true).thread.alert_users = none
    ∧ (mkWorld thread0 true true).thread.scheduled_close_at = none
    ∧ env0.config.threadTimestamps = false
    ∧ ((Thread.receiveUserReply env0 msg0 (mkWorld thread0 true true)).channelSent
        = (mkWorld thread0 true true).channelSent
          ++ [.plain (str "**" ++ msg0.authorUsername ++ str "#"
            ++ msg0.authorDiscriminator ++ str ":** " ++ Thread.embedsPlaceholder)]
      ∧ (Thread.receiveUserReply env0 msg0 (mkWorld thread0 true true)).transcript
        = (mkWorld thread0 true true).transcript
          ++ [Thread.fromUserRow (mkWorld thread0 true true).thread msg0 msg0.content
              (mkWorld thread0 true true).nextId env0.now]) :=
  ⟨by decide, by decide, by decide, rfl, rfl, rfl, rfl,
    embed_placeholder_display_only env0 msg0 (mkWorld thread0 true true)
      (by decide) (by decide) (by decide) rfl rfl rfl rfl⟩

end Modmail
